import Mathlib

/-!
Verification of the NewsGenie routing workflow against its source.

The Python sources are shallowly embedded:
* `src/config.py`         → `newsCategories`
* `src/agents/chatbot.py` → `stripFences`, `classify_query`, `defaultClassification`
* `src/tools/news_fetcher.py` → `get_news_by_category`
* `src/tools/web_search.py`   → `sourceFromHref`, `formatWebItem`, `formatWebResponse`,
  `webSearchToolSearch`
* `src/workflows/graph.py`    → `should_fetch_news`, `should_add_web_search`, `run_workflow`
* `src/workflows/nodes.py`    → the five node functions and the context assembly
  (`contextParts`, `buildContext`, `enhancedInput`).

External collaborators (the OpenAI chat model, NewsAPI, DuckDuckGo) are parameters
(`Env`); a call that raises a Python exception is modelled as `Except.error msg`.
A Python value that may be `None` is an `Option`; calling `.get` on `None`
(an `AttributeError` in Python) surfaces as `Except.error "AttributeError"` in the
routing functions, exactly where the source would raise.
-/

namespace NewsGenie

/-- The `Settings.news_categories` list from `src/config.py` (fixed enumeration order). -/
def newsCategories : List String :=
  ["general", "business", "technology", "entertainment", "health", "science", "sports"]

/-- The classifier's JSON object (`src/agents/chatbot.py`, `classify_query`).
`confidence` is embedded as a rational number. -/
structure Classification where
  is_news_request : Bool
  confidence : ℚ
  reasoning : String
deriving DecidableEq

/-- One formatted news article as produced by `NewsFetcher._format_response` and
consumed by `generate_response_node` (only the four keys the workflow reads are
modelled; `author`, `published_at`, `content`, `image_url` are never read by the
routing or response code). -/
structure Article where
  title : String
  description : String
  url : String
  source : String
deriving DecidableEq

/-- The normalized news-retrieval dict: `{status, message, articles}`
(`src/tools/news_fetcher.py`). -/
structure NewsResult where
  status : String
  message : String
  articles : List Article
deriving DecidableEq

/-- One formatted web-search item (`WebSearchTool._format_response`). -/
structure WebItem where
  title : String
  snippet : String
  url : String
  source : String
deriving DecidableEq

/-- The normalized web-search dict (`src/tools/web_search.py`).  The error dict
produced by `search`'s `except` branch has no `query`/`total_results` keys, hence
those fields are `Option`. -/
structure WebResult where
  status : String
  query : Option String
  total_results : Option Nat
  results : List WebItem
  message : String
deriving DecidableEq

/-- The `GraphState` record from `src/workflows/state.py`.  `metadata` is modelled by its
single written key `classification_confidence`.  A chat-history entry is a
`(role, content)` pair. -/
structure GraphState where
  user_input : String
  chat_history : List (String × String)
  query_classification : Option Classification
  news_results : Option NewsResult
  web_search_results : Option WebResult
  final_response : String
  error : Option String
  metadata_classification_confidence : Option ℚ
deriving DecidableEq

/-- External collaborators of the workflow, one field per call site guarded by a
node-level `try`.  `Except.error msg` models the call raising a Python exception
whose `str` is `msg`. -/
structure Env where
  classify : String → Except String Classification
  newsByCategory : String → Except String NewsResult
  searchNews : String → Nat → Except String NewsResult
  webSearch : String → Nat → Except String WebResult
  chat : String → List (String × String) → Except String String

/-- Python's `needle in hay` prefix test on character lists. -/
def leadsWith : List Char → List Char → Bool
  | [], _ => true
  | _ :: _, [] => false
  | n :: ns, h :: hs => n = h && leadsWith ns hs

/-- Substring occurrence on character lists. -/
def hasSub (needle : List Char) : List Char → Bool
  | [] => needle.isEmpty
  | h :: t => leadsWith needle (h :: t) || hasSub needle t

/-- Python's substring containment `needle in hay` for strings. -/
def strContains (hay needle : String) : Bool :=
  hasSub needle.toList hay.toList

/-- Python's `str.lower()` (character-wise; the categories and queries compared
against them are ASCII). -/
def pyLower (s : String) : String :=
  String.mk (s.data.map Char.toLower)

/-- The category-extraction loop of `fetch_news_node` (`src/workflows/nodes.py`
lines 92–99): the first entry of `settings.news_categories` that occurs as a
substring of the lowercased query, if any. -/
def newsFetchPlan (q : String) : Option String :=
  newsCategories.find? (fun cat => strContains (pyLower q) cat)

/-- Node `classify_query_node` (`src/workflows/nodes.py`).  On success it stores the
classification and the confidence metadata; a caught exception only sets
`error`. -/
def classify_query_node (env : Env) (s : GraphState) : GraphState :=
  match env.classify s.user_input with
  | .ok c =>
      { s with query_classification := some c
               metadata_classification_confidence := some c.confidence }
  | .error e => { s with error := some ("Classification error: " ++ e) }

/-- Node `fetch_news_node` (`src/workflows/nodes.py`): fetch by the first matching
category, else free-text search with `page_size=5`; a caught exception only sets
`error` (and leaves `news_results` as it was). -/
def fetch_news_node (env : Env) (s : GraphState) : GraphState :=
  let fetched :=
    match newsFetchPlan s.user_input with
    | some cat => env.newsByCategory cat
    | none => env.searchNews s.user_input 5
  match fetched with
  | .ok r => { s with news_results := some r }
  | .error e => { s with error := some ("News fetch error: " ++ e) }

/-- Node `web_search_node` (`src/workflows/nodes.py`): a caught exception is absorbed
into an error-status result dict and the pipeline-level `error` is not set. -/
def web_search_node (env : Env) (s : GraphState) : GraphState :=
  match env.webSearch s.user_input 5 with
  | .ok r => { s with web_search_results := some r }
  | .error e =>
      let r : WebResult :=
        { status := "error", query := none, total_results := none,
          results := [], message := e }
      { s with web_search_results := some r }

inductive NewsRoute where
  | fetch_news
  | handle_general
deriving DecidableEq

inductive SearchRoute where
  | web_search
  | generate_response
deriving DecidableEq

/-- Router `should_fetch_news` (`src/workflows/graph.py`).  `state.get(key, {})` returns
the stored value, so a stored `None` reaches `.get` and raises `AttributeError`;
that raise is the `Except.error` branch. -/
def should_fetch_news (s : GraphState) : Except String NewsRoute :=
  match s.query_classification with
  | none => .error "AttributeError"
  | some c =>
      if c.is_news_request ∧ (6 / 10 : ℚ) < c.confidence then .ok .fetch_news
      else .ok .handle_general

/-- Router `should_add_web_search` (`src/workflows/graph.py`); same `AttributeError`
behaviour on a stored `None`. -/
def should_add_web_search (s : GraphState) : Except String SearchRoute :=
  match s.news_results with
  | none => .error "AttributeError"
  | some r =>
      if r.status = "error" then .ok .web_search
      else if r.articles.length < 3 then .ok .web_search
      else .ok .generate_response

/-- One numbered article block of the context
(`generate_response_node`, lines 188–193). -/
def newsArticleBlock (i : Nat) (a : Article) : String :=
  toString i ++ ". " ++ a.title ++ "\n   Source: " ++ a.source ++ "\n   " ++
    a.description ++ "\n   URL: " ++ a.url ++ "\n"

/-- One numbered web-result block of the context
(`generate_response_node`, lines 202–206). -/
def webItemBlock (i : Nat) (r : WebItem) : String :=
  toString i ++ ". " ++ r.title ++ "\n   " ++ r.snippet ++ "\n   URL: " ++
    r.url ++ "\n"

/-- The `context_parts` assembly of `generate_response_node` (lines 179–206).
News content requires a present result with status `"success"` and a non-empty
article list; web content additionally requires `not news_results`, i.e. the
news result object being absent (`None`). -/
def contextParts (news : Option NewsResult) (web : Option WebResult) :
    List String :=
  let newsPart :=
    match news with
    | some nr =>
        if nr.status = "success" ∧ nr.articles ≠ [] then
          "**Recent News Articles:**\n" ::
            ((nr.articles.take 5).enumFrom 1).map (fun p => newsArticleBlock p.1 p.2)
        else []
    | none => []
  let webPart :=
    match web with
    | some wr =>
        if wr.status = "success" ∧ wr.results ≠ [] ∧ news = none then
          "\n**Additional Information:**\n" ::
            ((wr.results.take 3).enumFrom 1).map (fun p => webItemBlock p.1 p.2)
        else []
    | none => []
  newsPart ++ webPart

/-- The joined context string (`generate_response_node`, line 209). -/
def buildContext (news : Option NewsResult) (web : Option WebResult) : String :=
  let parts := contextParts news web
  if parts = [] then "" else String.intercalate "\n" parts

/-- The prompt sent to the model (`generate_response_node`, lines 212–221). -/
def enhancedInput (user_input context : String) : String :=
  if context = "" then user_input
  else
    "Based on the following information, please answer the user's question:\n\n" ++
      context ++ "\n\nUser's question: " ++ user_input ++
      "\n\nPlease provide a helpful, informative response that synthesizes the information above."

/-- Node `generate_response_node` (`src/workflows/nodes.py`): on a caught exception it
sets `error` and substitutes an apology for `final_response`. -/
def generate_response_node (env : Env) (s : GraphState) : GraphState :=
  let context := buildContext s.news_results s.web_search_results
  match env.chat (enhancedInput s.user_input context) s.chat_history with
  | .ok resp => { s with final_response := resp }
  | .error e =>
      { s with error := some ("Response generation error: " ++ e)
               final_response := "I apologize, but I encountered an error: " ++ e }

/-- Node `handle_general_query_node` (`src/workflows/nodes.py`). -/
def handle_general_query_node (env : Env) (s : GraphState) : GraphState :=
  match env.chat s.user_input s.chat_history with
  | .ok resp => { s with final_response := resp }
  | .error e =>
      { s with error := some ("General query error: " ++ e)
               final_response := "I apologize, but I encountered an error: " ++ e }

/-- The initial state built by `run_workflow` (`src/workflows/graph.py`,
lines 128–137). -/
def initialState (q : String) (h : List (String × String)) : GraphState :=
  { user_input := q, chat_history := h, query_classification := none
    news_results := none, web_search_results := none, final_response := ""
    error := none, metadata_classification_confidence := none }

/-- Driver `run_workflow` (`src/workflows/graph.py`): the compiled graph
`classify_query → {fetch_news → {web_search → generate_response,
generate_response}, handle_general} → END`.  An exception raised inside a
conditional-edge function propagates out of `invoke`, hence the
`Except.error` results. -/
def run_workflow (env : Env) (q : String) (h : List (String × String)) :
    Except String GraphState :=
  let s1 := classify_query_node env (initialState q h)
  match should_fetch_news s1 with
  | .error e => .error e
  | .ok .handle_general => .ok (handle_general_query_node env s1)
  | .ok .fetch_news =>
      let s2 := fetch_news_node env s1
      match should_add_web_search s2 with
      | .error e => .error e
      | .ok .web_search => .ok (generate_response_node env (web_search_node env s2))
      | .ok .generate_response => .ok (generate_response_node env s2)

/-- The fallback classification returned by `NewsGenieAgent.classify_query`'s
`except` branch (`src/agents/chatbot.py`, lines 114–118). -/
def defaultClassification : Classification :=
  { is_news_request := false, confidence := 1 / 2,
    reasoning := "Classification error, defaulting to general query" }

/-- The fence-stripping of `classify_query` (`src/agents/chatbot.py`,
lines 100–107): strip, drop a leading ```` ```json ```` (7 chars) or ```` ``` ````
(3 chars), drop a trailing ```` ``` ````, strip again. -/
def stripFences (raw : String) : String :=
  let c0 := raw.trim
  let c1 := if c0.startsWith "```json" then c0.drop 7 else c0
  let c2 := if c1.startsWith "```" then c1.drop 3 else c1
  let c3 := if c2.endsWith "```" then c2.dropRight 3 else c2
  c3.trim

/-- Method `NewsGenieAgent.classify_query` (`src/agents/chatbot.py`).  The model call
and `json.loads` are parameters; `Except.error` models either raising.  Every
exception inside the `try` yields `defaultClassification`. -/
def classify_query (llm : Except String String)
    (parseJson : String → Except String Classification) : Classification :=
  match llm with
  | .error _ => defaultClassification
  | .ok raw =>
      match parseJson (stripFences raw) with
      | .ok result => result
      | .error _ => defaultClassification

/-- Method `NewsFetcher.get_news_by_category` (`src/tools/news_fetcher.py`,
lines 110–134).  `get_top_headlines` is a parameter, applied to the lowercased
category and the country. -/
def get_news_by_category (getTopHeadlines : String → String → NewsResult)
    (category country : String) : NewsResult :=
  if newsCategories.contains (pyLower category) then
    getTopHeadlines (pyLower category) country
  else
    { status := "error",
      message := "Invalid category. Valid options: " ++
        String.intercalate ", " newsCategories,
      articles := [] }

/-- One raw DuckDuckGo text hit; `none` models a missing dict key. -/
structure RawItem where
  title : Option String
  body : Option String
  href : Option String
deriving DecidableEq

/-- The `source` expression of `WebSearchTool._format_response` (line 122):
`result.get("href", "").split("/")[2] if result.get("href") else "Unknown"`.
Indexing past the end of the split raises `IndexError`. -/
def sourceFromHref (href : Option String) : Except String String :=
  match href with
  | none => .ok "Unknown"
  | some h =>
      if h = "" then .ok "Unknown"
      else
        match (h.splitOn "/").get? 2 with
        | some s => .ok s
        | none => .error "list index out of range"

/-- One formatted item of `WebSearchTool._format_response` (lines 117–123). -/
def formatWebItem (r : RawItem) : Except String WebItem :=
  match sourceFromHref r.href with
  | .error e => .error e
  | .ok src =>
      .ok { title := r.title.getD "No title",
            snippet := r.body.getD "No description available",
            url := r.href.getD "", source := src }

/-- Method `WebSearchTool._format_response` (`src/tools/web_search.py`,
lines 92–131). -/
def formatWebResponse (results : List RawItem) (query : String) :
    Except String WebResult :=
  if results = [] then
    .ok { status := "success", query := some query, total_results := some 0,
          results := [], message := "No results found" }
  else
    match results.mapM formatWebItem with
    | .error e => .error e
    | .ok formatted =>
        .ok { status := "success", query := some query,
              total_results := some formatted.length, results := formatted,
              message := "Found " ++ toString formatted.length ++ " results" }

/-- Method `WebSearchTool.search` (`src/tools/web_search.py`, lines 23–57).  The
DuckDuckGo call is a parameter; any exception inside the `try` (from the call or
from formatting) is converted to the error dict. -/
def webSearchToolSearch (ddgs : Except String (List RawItem)) (query : String) :
    WebResult :=
  match ddgs with
  | .error e =>
      { status := "error", query := none, total_results := none, results := [],
        message := "Search failed: " ++ e }
  | .ok rs =>
      match formatWebResponse rs query with
      | .ok w => w
      | .error e =>
          { status := "error", query := none, total_results := none,
            results := [], message := "Search failed: " ++ e }


/-! ## Theorems for the claims -/

/-- Helper: `List.find?` returns the first element satisfying the predicate. -/
theorem find_first_characterization {α : Type} (p : α → Bool) :
    ∀ (l : List α) (b : α), l.find? p = some b →
      ∃ pre suf, l = pre ++ b :: suf ∧ p b = true ∧ ∀ d ∈ pre, p d = false := by
  intro l
  induction l with
  | nil => intro b h; simp [List.find?] at h
  | cons hd tl ih =>
    intro b h
    by_cases hp : p hd
    · rw [List.find?_cons_of_pos _ hp] at h
      obtain rfl : hd = b := by simpa using h
      exact ⟨[], tl, rfl, hp, by simp⟩
    · rw [List.find?_cons_of_neg _ (by simpa using hp)] at h
      obtain ⟨pre, suf, heq, hpb, hpre⟩ := ih b h
      refine ⟨hd :: pre, suf, by simp [heq], hpb, ?_⟩
      intro d hd'
      rcases List.mem_cons.mp hd' with h1 | h1
      · subst h1; simpa using hp
      · exact hpre d h1

/-- C1 (code bug): with a present error-status news result and a successful
non-empty web result, the assembled context is empty — the web-search content is
dropped, because `generate_response_node` adds web items only when the news
result object is absent (`not news_results`), not when it is unusable. -/
theorem c1_web_context_dropped :
    buildContext (some { status := "error", message := "boom", articles := [] })
      (some { status := "success", query := some "q", total_results := some 1,
              results := [⟨"T", "snip", "http://a/b", "a"⟩],
              message := "Found 1 results" }) = "" := rfl

/-- Stub environment whose classify stage raises (for C2). -/
def envClassifyRaises : Env :=
  { classify := fun _ => .error "boom",
    newsByCategory := fun _ => .ok ⟨"success", "", []⟩,
    searchNews := fun _ _ => .ok ⟨"success", "", []⟩,
    webSearch := fun _ _ => .ok ⟨"success", none, some 0, [], "m"⟩,
    chat := fun i _ => .ok i }

/-- C2 (code bug): when the Classify stage catches an exception and leaves the
classification `None`, the invocation does not route to the general path — it
raises `AttributeError` out of `run_workflow`, because `should_fetch_news` calls
`.get` on the stored `None`. -/
theorem c2_classify_crash :
    run_workflow envClassifyRaises "hello" [] = Except.error "AttributeError" := rfl

/-- C3: with a classification present, the post-classify router picks the news
path iff `is_news_request` is true and `confidence` is strictly above `6/10`;
in particular confidence exactly `6/10`, or a false flag, routes to the general
path. -/
theorem c3_confidence_threshold (s : GraphState) (cl : Classification)
    (h : s.query_classification = some cl) :
    (should_fetch_news s = Except.ok NewsRoute.fetch_news ↔
      cl.is_news_request = true ∧ (6 / 10 : ℚ) < cl.confidence) ∧
    (cl.is_news_request = false ∨ cl.confidence = 6 / 10 →
      should_fetch_news s = Except.ok NewsRoute.handle_general) := by
  simp only [should_fetch_news, h]
  split_ifs with hcond
  · refine ⟨by simp [hcond], ?_⟩
    intro hbad
    rcases hbad with h1 | h1
    · rw [h1] at hcond; simp at hcond
    · rw [h1] at hcond; exact absurd hcond.2 (lt_irrefl _)
  · refine ⟨?_, fun _ => rfl⟩
    constructor
    · intro hr; simp at hr
    · intro hc; exact absurd hc hcond

/-- Concrete state for the C3 witness: news flag true, confidence exactly 6/10. -/
def s3w : GraphState :=
  { initialState "q" [] with query_classification := some ⟨true, 6 / 10, "r"⟩ }

/-- Witness for C3: confidence exactly at the threshold routes to the general
path. -/
theorem c3_witness : should_fetch_news s3w = Except.ok NewsRoute.handle_general :=
  (c3_confidence_threshold s3w ⟨true, 6 / 10, "r"⟩ rfl).2 (Or.inr rfl)

/-- C4: with a news result present, the post-fetch router picks the web-search
fallback iff the status is `"error"` or fewer than 3 articles came back, and
goes straight to response generation iff the status is not `"error"` and at
least 3 articles came back. -/
theorem c4_sparse_news_fallback (s : GraphState) (r : NewsResult)
    (h : s.news_results = some r) :
    (should_add_web_search s = Except.ok SearchRoute.web_search ↔
      r.status = "error" ∨ r.articles.length < 3) ∧
    (should_add_web_search s = Except.ok SearchRoute.generate_response ↔
      r.status ≠ "error" ∧ 3 ≤ r.articles.length) := by
  simp only [should_add_web_search, h]
  split_ifs with h1 h2 <;> simp_all

/-- Concrete state for the C4 witness: a success result with zero articles. -/
def s4w : GraphState :=
  { initialState "q" [] with news_results := some ⟨"success", "m", []⟩ }

/-- Witness for C4: a success result with zero articles triggers the web-search
fallback. -/
theorem c4_witness : should_add_web_search s4w = Except.ok SearchRoute.web_search :=
  (c4_sparse_news_fallback s4w ⟨"success", "m", []⟩ rfl).1.mpr (Or.inr (by decide))

/-- C5: when both the news and the web result are present, successful and
non-empty, the assembled context equals the context with the web result removed
and consists exactly of the news header plus the first five formatted articles —
news suppresses web content entirely. -/
theorem c5_news_priority (nr : NewsResult) (wr : WebResult)
    (h1 : nr.status = "success") (h2 : nr.articles ≠ [])
    (h3 : wr.status = "success") (h4 : wr.results ≠ []) :
    buildContext (some nr) (some wr) = buildContext (some nr) none ∧
    contextParts (some nr) (some wr) =
      "**Recent News Articles:**\n" ::
        ((nr.articles.take 5).enumFrom 1).map (fun p => newsArticleBlock p.1 p.2) := by
  have hsame : contextParts (some nr) (some wr) = contextParts (some nr) none := by
    simp [contextParts]
  refine ⟨by simp [buildContext, hsame], ?_⟩
  simp [contextParts, h1, h2]

/-- Concrete news result for the C5 witness. -/
def nr5w : NewsResult := ⟨"success", "m", [⟨"t", "d", "u", "s"⟩]⟩

/-- Concrete web result for the C5 witness. -/
def wr5w : WebResult := ⟨"success", some "q", some 1, [⟨"T", "S", "U", "V"⟩], "m"⟩

/-- Witness for C5 at concrete one-article news and one-item web results. -/
theorem c5_witness :
    buildContext (some nr5w) (some wr5w) = buildContext (some nr5w) none ∧
    contextParts (some nr5w) (some wr5w) =
      "**Recent News Articles:**\n" ::
        ((nr5w.articles.take 5).enumFrom 1).map (fun p => newsArticleBlock p.1 p.2) :=
  c5_news_priority nr5w wr5w rfl (by decide) rfl (by decide)

/-- C6 (counterexample): the fallback classification returned on a model-call
failure does not have reasoning `"fallback"`. -/
theorem c6_counter :
    (classify_query (Except.error "boom")
      (fun _ => Except.error "parse")).reasoning ≠ "fallback" := by decide

/-- C6 (amended): on any model-call failure, and on any parse failure of the
fence-stripped model text, `classify_query` returns the default fallback
classification `{is_news_request := false, confidence := 1/2, reasoning :=
"Classification error, defaulting to general query"}` instead of raising. -/
theorem c6_amended_fallback (llm : Except String String)
    (p : String → Except String Classification)
    (h : ∀ raw, llm = Except.ok raw → ∃ e, p (stripFences raw) = Except.error e) :
    classify_query llm p = defaultClassification := by
  cases llm with
  | error e => rfl
  | ok raw =>
    obtain ⟨e, he⟩ := h raw rfl
    simp [classify_query, he]

/-- Witness for C6 (amended): a parse failure yields the default fallback. -/
theorem c6_witness :
    classify_query (Except.ok "not json")
      (fun _ => Except.error "Expecting value") = defaultClassification :=
  c6_amended_fallback _ _ (fun _ _ => ⟨"Expecting value", rfl⟩)

/-- Stub environment whose news fetch raises (for the C7 counterexample). -/
def envNewsRaises : Env :=
  { classify := fun _ => .ok ⟨true, 9 / 10, "news"⟩,
    newsByCategory := fun _ => .error "boom",
    searchNews := fun _ _ => .error "boom",
    webSearch := fun _ _ => .ok ⟨"success", none, some 0, [], "m"⟩,
    chat := fun i _ => .ok i }

/-- C7 (counterexample): a caught exception at FetchNews sets `error` but does
NOT substitute an apology for `final_response` (it stays empty), and the
invocation then raises `AttributeError` in the post-fetch router instead of
reaching a terminal state. -/
theorem c7_counter :
    (fetch_news_node envNewsRaises (initialState "x" [])).error =
        some "News fetch error: boom" ∧
    (fetch_news_node envNewsRaises (initialState "x" [])).final_response = "" ∧
    run_workflow envNewsRaises "x" [] = Except.error "AttributeError" := by
  refine ⟨rfl, rfl, ?_⟩
  have hcl : (classify_query_node envNewsRaises (initialState "x" [])).query_classification =
      some ⟨true, 9 / 10, "news"⟩ := rfl
  have hroute : should_fetch_news (classify_query_node envNewsRaises (initialState "x" [])) =
      Except.ok NewsRoute.fetch_news := by
    simp only [should_fetch_news, hcl]
    rw [if_pos]
    exact ⟨trivial, by norm_num⟩
  simp only [run_workflow]
  rw [hroute]
  rfl

/-- C7 (amended): a caught exception at Respond sets `error` and substitutes the
apology for `final_response`; a caught exception at FetchNews sets `error` but
leaves `final_response` unchanged. -/
theorem c7_amended_pair (env : Env) (s : GraphState) (e₁ e₂ : String)
    (h1 : (match newsFetchPlan s.user_input with
           | some cat => env.newsByCategory cat
           | none => env.searchNews s.user_input 5) = Except.error e₁)
    (h2 : env.chat (enhancedInput s.user_input
            (buildContext s.news_results s.web_search_results)) s.chat_history =
          Except.error e₂) :
    ((fetch_news_node env s).error = some ("News fetch error: " ++ e₁) ∧
     (fetch_news_node env s).final_response = s.final_response) ∧
    ((generate_response_node env s).error =
        some ("Response generation error: " ++ e₂) ∧
     (generate_response_node env s).final_response =
       "I apologize, but I encountered an error: " ++ e₂) := by
  constructor
  · simp [fetch_news_node, h1]
  · simp [generate_response_node, h2]

/-- Stub environment whose news fetch and model call both raise (for the C7
witness). -/
def envBothRaise : Env :=
  { classify := fun _ => .ok ⟨false, 0, ""⟩,
    newsByCategory := fun _ => .error "nboom",
    searchNews := fun _ _ => .error "nboom",
    webSearch := fun _ _ => .ok ⟨"success", none, some 0, [], "m"⟩,
    chat := fun _ _ => .error "lboom" }

/-- Witness for C7 (amended) at a concrete failing environment and the initial
state. -/
theorem c7_witness :
    ((fetch_news_node envBothRaise (initialState "x" [])).error =
        some ("News fetch error: " ++ "nboom") ∧
     (fetch_news_node envBothRaise (initialState "x" [])).final_response =
        (initialState "x" []).final_response) ∧
    ((generate_response_node envBothRaise (initialState "x" [])).error =
        some ("Response generation error: " ++ "lboom") ∧
     (generate_response_node envBothRaise (initialState "x" [])).final_response =
       "I apologize, but I encountered an error: " ++ "lboom") :=
  c7_amended_pair envBothRaise (initialState "x" []) "nboom" "lboom" rfl rfl

/-- C8: the category plan of `fetch_news_node` is the first category of the
fixed enumeration occurring as a substring of the lowercased query (none when no
category word occurs), and the node fetches by that category, or by free-text
search of the query with page size 5 when there is none. -/
theorem c8_category_selection (q : String) :
    (newsFetchPlan q = none ↔
      ∀ c ∈ newsCategories, strContains (pyLower q) c = false) ∧
    (∀ c, newsFetchPlan q = some c →
      ∃ pre suf, newsCategories = pre ++ c :: suf ∧
        strContains (pyLower q) c = true ∧
        ∀ d ∈ pre, strContains (pyLower q) d = false) ∧
    (∀ env s r, s.user_input = q →
      ((∃ cat, newsFetchPlan q = some cat ∧ env.newsByCategory cat = Except.ok r) ∨
       (newsFetchPlan q = none ∧ env.searchNews q 5 = Except.ok r)) →
      (fetch_news_node env s).news_results = some r) := by
  refine ⟨?_, ?_, ?_⟩
  · simp [newsFetchPlan, List.find?_eq_none]
  · intro c h
    exact find_first_characterization _ newsCategories c h
  · intro env s r hq hcase
    rcases hcase with ⟨cat, hplan, hok⟩ | ⟨hplan, hok⟩ <;>
      simp only [fetch_news_node, hq, hplan, hok]

/-- Witness for C8: a query containing both "sports" and "business" selects
"business", the earlier entry of the enumeration. -/
theorem c8_witness :
    ∃ pre suf, newsCategories = pre ++ "business" :: suf ∧
      strContains (pyLower "Any sports business update") "business" = true ∧
      ∀ d ∈ pre, strContains (pyLower "Any sports business update") d = false :=
  (c8_category_selection "Any sports business update").2.1 "business" rfl

/-- C9: a completed web search with zero hits is reported as a success dict with
empty results, `total_results` 0 and message "No results found" — never as an
error. -/
theorem c9_empty_web_success (q : String) :
    webSearchToolSearch (Except.ok []) q =
      { status := "success", query := some q, total_results := some 0,
        results := [], message := "No results found" } ∧
    (webSearchToolSearch (Except.ok []) q).status ≠ "error" := by
  refine ⟨rfl, ?_⟩
  intro h
  simp [webSearchToolSearch, formatWebResponse] at h

/-- Stub `get_top_headlines` for the C10 witness. -/
def gTopStub : String → String → NewsResult := fun c k => ⟨"stub", c ++ k, []⟩

/-- C10: a category whose lowercasing is not in the configured list yields the
error dict with empty articles and the message listing the valid options,
independently of the fetch function; a valid category (any letter case)
delegates to `get_top_headlines` on the lowercased category. -/
theorem c10_category_validation (getTop : String → String → NewsResult)
    (category country : String) :
    (pyLower category ∉ newsCategories →
      get_news_by_category getTop category country =
        { status := "error",
          message := "Invalid category. Valid options: general, business, technology, entertainment, health, science, sports",
          articles := [] }) ∧
    (pyLower category ∈ newsCategories →
      get_news_by_category getTop category country =
        getTop (pyLower category) country) := by
  constructor
  · intro h
    have hc : newsCategories.contains (pyLower category) = false := by
      simpa using h
    simp only [get_news_by_category, hc, Bool.false_eq_true, if_false]
    rfl
  · intro h
    have hc : newsCategories.contains (pyLower category) = true := by
      simpa using h
    simp only [get_news_by_category, hc, if_true]

/-- Witness for C10: "foo" is rejected with the error dict, "SPORTS" (uppercase)
delegates to the stub on "sports". -/
theorem c10_witness :
    get_news_by_category gTopStub "foo" "us" =
      { status := "error",
        message := "Invalid category. Valid options: general, business, technology, entertainment, health, science, sports",
        articles := [] } ∧
    get_news_by_category gTopStub "SPORTS" "us" = gTopStub (pyLower "SPORTS") "us" :=
  ⟨(c10_category_validation gTopStub "foo" "us").1 (by decide),
   (c10_category_validation gTopStub "SPORTS" "us").2 (by decide)⟩

end NewsGenie
